import Mathlib

/-!
Verification development for the bybitbot position-lifecycle pipeline.

The Python source is shallowly embedded over exact rationals:
* `float` / `Decimal` values become `ℚ` (the counterexamples and witnesses
  below use decimally representable numbers on which the two agree);
* `Decimal.quantize(step, ROUND_DOWN/ROUND_UP)` with the power-of-ten step
  strings the venue serves (`"0.001"`, `"0.1"`, …) becomes `qDown` / `qUp`,
  rounding to a multiple of the step;
* the gateway (HTTP session) is an explicit environment record holding the
  responses each remote call would return, and remote mutations performed by
  a call are collected into an explicit action list;
* the JSON state store entry for one symbol is an `Option TradeStateRec`.
-/

namespace BybitBot

/-- Floor-quantization to a multiple of `step`
(`Decimal.quantize(step, rounding=ROUND_DOWN)` on positive values). -/
def qDown (step x : ℚ) : ℚ := ⌊x / step⌋ * step

/-- Ceiling-quantization to a multiple of `step`
(`Decimal.quantize(step, rounding=ROUND_UP)` on positive values). -/
def qUp (step x : ℚ) : ℚ := ⌈x / step⌉ * step

theorem qDown_is_multiple (step x : ℚ) : ∃ k : ℤ, qDown step x = k * step :=
  ⟨⌊x / step⌋, rfl⟩

theorem qUp_is_multiple (step x : ℚ) : ∃ k : ℤ, qUp step x = k * step :=
  ⟨⌈x / step⌉, rfl⟩

theorem qDown_le (step x : ℚ) (h : 0 < step) : qDown step x ≤ x := by
  have h1 : (⌊x / step⌋ : ℚ) ≤ x / step := Int.floor_le _
  have h2 : (⌊x / step⌋ : ℚ) * step ≤ (x / step) * step :=
    mul_le_mul_of_nonneg_right h1 (le_of_lt h)
  have h3 : (x / step) * step = x := div_mul_cancel₀ x (ne_of_gt h)
  calc qDown step x = (⌊x / step⌋ : ℚ) * step := rfl
    _ ≤ (x / step) * step := h2
    _ = x := h3

theorem sub_qDown_lt (step x : ℚ) (h : 0 < step) : x - qDown step x < step := by
  have h1 : x / step < (⌊x / step⌋ : ℚ) + 1 := Int.lt_floor_add_one _
  have h2 : (x / step) * step < ((⌊x / step⌋ : ℚ) + 1) * step :=
    mul_lt_mul_of_pos_right h1 h
  have h3 : (x / step) * step = x := div_mul_cancel₀ x (ne_of_gt h)
  have h4 : x < (⌊x / step⌋ : ℚ) * step + step := by
    rw [h3] at h2; linarith
  have : qDown step x = (⌊x / step⌋ : ℚ) * step := rfl
  linarith

theorem le_qUp (step x : ℚ) (h : 0 < step) : x ≤ qUp step x := by
  have h1 : x / step ≤ (⌈x / step⌉ : ℚ) := Int.le_ceil _
  have h2 : (x / step) * step ≤ (⌈x / step⌉ : ℚ) * step :=
    mul_le_mul_of_nonneg_right h1 (le_of_lt h)
  have h3 : (x / step) * step = x := div_mul_cancel₀ x (ne_of_gt h)
  calc x = (x / step) * step := h3.symm
    _ ≤ (⌈x / step⌉ : ℚ) * step := h2
    _ = qUp step x := rfl

theorem qUp_sub_lt (step x : ℚ) (h : 0 < step) : qUp step x - x < step := by
  have h1 : (⌈x / step⌉ : ℚ) < x / step + 1 := Int.ceil_lt_add_one _
  have h2 : (⌈x / step⌉ : ℚ) * step < (x / step + 1) * step :=
    mul_lt_mul_of_pos_right h1 h
  have h3 : (x / step) * step = x := div_mul_cancel₀ x (ne_of_gt h)
  have h4 : (x / step + 1) * step = x + step := by
    rw [add_mul, h3, one_mul]
  have : qUp step x = (⌈x / step⌉ : ℚ) * step := rfl
  linarith

/-- If `m` is a multiple of `step` and `m ≤ x`, floor-quantization keeps `m ≤ qDown step x`. -/
theorem qDown_ge_of_multiple_le (step x m : ℚ) (hstep : 0 < step) (k : ℤ)
    (hm : m = k * step) (hle : m ≤ x) : m ≤ qDown step x := by
  have hk : (k : ℚ) ≤ x / step := by
    rw [le_div_iff₀ hstep]
    calc (k : ℚ) * step = m := hm.symm
      _ ≤ x := hle
  have hfloor : k ≤ ⌊x / step⌋ := Int.le_floor.mpr hk
  have : (k : ℚ) * step ≤ (⌊x / step⌋ : ℚ) * step :=
    mul_le_mul_of_nonneg_right (by exact_mod_cast hfloor) (le_of_lt hstep)
  calc m = (k : ℚ) * step := hm
    _ ≤ (⌊x / step⌋ : ℚ) * step := this
    _ = qDown step x := rfl

/-! ## Position Sizing Engine (`trader.py`, `BybitTrader.calculate_position_size`) -/

/-- `lot_size_filter` fields used by the sizing routine. -/
structure LotSizeFilter where
  minOrderQty : ℚ
  qtyStep : ℚ
deriving DecidableEq, Repr

/-- `margin_limit_percent = 0.20` (hard-coded in `calculate_position_size`). -/
def margin_limit_percent : ℚ := 20 / 100

/-- Embedding of `BybitTrader.calculate_position_size`.

The Python method starts with `balance = self.get_balance()`: the balance is
fetched from the gateway inside the call, not supplied by the caller, so the
embedding takes the gateway's response as the explicit `balance` argument.
`leverage` is the `self.leverage` configuration field. -/
def calculate_position_size (balance approx_entry_price stop_loss_price : ℚ)
    (lot : LotSizeFilter) (risk_percent leverage : ℚ) : Option ℚ :=
  if balance ≤ 0 then none
  else
    let allowed_margin := balance * margin_limit_percent
    let max_position_value := allowed_margin * leverage
    let qty_by_margin_limit := max_position_value / approx_entry_price
    let risk_amount := balance * (risk_percent / 100)
    let price_risk_per_unit := |approx_entry_price - stop_loss_price|
    if price_risk_per_unit = 0 then none
    else
      let qty_by_risk := risk_amount / price_risk_per_unit
      let final_qty := min qty_by_risk qty_by_margin_limit
      if final_qty < lot.minOrderQty then none
      else some (qDown lot.qtyStep final_qty)

/-- C1 (amended): any returned quantity is an exact multiple of `qtyStep`; and
because the `BelowMinimumSize` comparison is made on the quantity BEFORE
floor-quantization, the returned quantity is ≥ `minOrderQty` whenever
`minOrderQty` is itself a multiple of `qtyStep` (but not in general). -/
theorem c1_sizing_quantization_amended
    (balance entry stop risk_percent leverage q : ℚ) (lot : LotSizeFilter)
    (hstep : 0 < lot.qtyStep)
    (hres : calculate_position_size balance entry stop lot risk_percent leverage = some q) :
    (∃ k : ℤ, q = k * lot.qtyStep) ∧
    ((∃ m : ℤ, lot.minOrderQty = m * lot.qtyStep) → lot.minOrderQty ≤ q) := by
  simp only [calculate_position_size] at hres
  split_ifs at hres with h1 h2 h3
  have hq : q = qDown lot.qtyStep
      (min (balance * (risk_percent / 100) / |entry - stop|)
        (balance * margin_limit_percent * leverage / entry)) :=
    (Option.some_injective _ hres).symm
  constructor
  · obtain ⟨k, hk⟩ := qDown_is_multiple lot.qtyStep
      (min (balance * (risk_percent / 100) / |entry - stop|)
        (balance * margin_limit_percent * leverage / entry))
    exact ⟨k, by rw [hq, hk]⟩
  · rintro ⟨m, hm⟩
    rw [hq]
    exact qDown_ge_of_multiple_le lot.qtyStep _ lot.minOrderQty hstep m hm (not_lt.mp h3)

/-- C1 witness: at balance 15, entry 100, stop 90, risk 1 %, leverage 5,
minOrderQty 0.01, qtyStep 0.01, the call returns 0.01, a multiple of the step
and ≥ the minimum. -/
theorem c1_sizing_quantization_amended_witness :
    calculate_position_size 15 100 90 ⟨1/100, 1/100⟩ 1 5 = some (1/100) ∧
    (∃ k : ℤ, (1/100 : ℚ) = k * (1/100 : ℚ)) ∧ (1/100 : ℚ) ≤ 1/100 := by
  have h := c1_sizing_quantization_amended 15 100 90 1 5 (1/100) ⟨1/100, 1/100⟩
    (by norm_num)
    (by norm_num [calculate_position_size, margin_limit_percent, qDown, Rat.floor_def, min_def])
  refine ⟨?_, h.1, h.2 ⟨1, by norm_num⟩⟩
  norm_num [calculate_position_size, margin_limit_percent, qDown, Rat.floor_def, min_def]

/-- C1 counterexample: with minOrderQty = 0.012 and qtyStep = 0.01 the
pre-quantization quantity 0.015 passes the minimum check, but the returned
floor-quantized quantity 0.01 is strictly below `minOrderQty`; the claim that
the minimum comparison is made after quantization (and that no returned
quantity violates the bound) is false of the code. -/
theorem c1_sizing_quantization_counterexample :
    calculate_position_size 15 100 90 ⟨12/1000, 1/100⟩ 1 5 = some (1/100) ∧
    (1/100 : ℚ) < 12/1000 := by
  constructor
  · norm_num [calculate_position_size, margin_limit_percent, qDown, Rat.floor_def, min_def]
  · norm_num

/-- C2 (amended, part 1): whenever `entryPrice = stopPrice` the sizing call
returns no quantity, for every fetched balance. -/
theorem c2_zero_risk_distance_amended
    (balance entry stop risk_percent leverage : ℚ) (lot : LotSizeFilter)
    (h : entry = stop) :
    calculate_position_size balance entry stop lot risk_percent leverage = none := by
  subst h
  unfold calculate_position_size
  split_ifs <;> simp_all

/-- C2 witness: at entry = stop = 7 the call fails for balance 100. -/
theorem c2_zero_risk_distance_amended_witness :
    calculate_position_size 100 7 7 ⟨1/100, 1/100⟩ 1 5 = none :=
  c2_zero_risk_distance_amended 100 7 7 1 5 ⟨1/100, 1/100⟩ rfl

/-- C2 counterexample: the sizing routine is NOT a pure function of its
supplied arguments — it fetches the account balance itself
(`balance = self.get_balance()` is the first line of the Python method), and
with identical supplied arguments two different gateway balances yield two
different quantities. -/
theorem c2_purity_counterexample :
    calculate_position_size 10000 100 98 ⟨1/100, 1/1000⟩ 1 5 = some 50 ∧
    calculate_position_size 5000 100 98 ⟨1/100, 1/1000⟩ 1 5 = some 25 ∧
    (50 : ℚ) ≠ 25 := by
  refine ⟨?_, ?_, by norm_num⟩ <;>
    norm_num [calculate_position_size, margin_limit_percent, qDown, Rat.floor_def, min_def]

/-- C10: the sizing call fails immediately when the fetched balance is ≤ 0
(`if balance <= 0: return None` precedes every quantity computation). -/
theorem c10_nonpositive_balance_fails
    (balance entry stop risk_percent leverage : ℚ) (lot : LotSizeFilter)
    (h : balance ≤ 0) :
    calculate_position_size balance entry stop lot risk_percent leverage = none := by
  unfold calculate_position_size
  rw [if_pos h]

/-- C10 witness: balance 0 fails. -/
theorem c10_nonpositive_balance_fails_witness :
    calculate_position_size 0 100 98 ⟨1/100, 1/1000⟩ 1 5 = none :=
  c10_nonpositive_balance_fails 0 100 98 1 5 ⟨1/100, 1/1000⟩ (by norm_num)

/-! ## Trade Lifecycle Controller (`trader.py`, `BybitTrader.execute_trade`) -/

inductive Side
  | Buy
  | Sell
deriving DecidableEq, Repr

/-- Remote calls performed by `execute_trade`: the initialisation block's
calls (`get_instruments_info` read, position-mode switch, leverage set), the
duplicate-guard's `get_open_positions` venue read, and the three mutating
order/stop calls.  The balance fetch inside sizing and the post-order
confirmation read are modelled as environment inputs (`balance`,
`positionAvgPrice`) instead of listed actions. -/
inductive Action
  | getInstrumentInfo
  | switchPositionMode
  | setLeverage
  | getOpenPositions
  | placeMarketOrder
  | setTradingStop
  | placeReduceOnlyOrder
deriving DecidableEq, Repr

/-- The cached `instrument_info` fields `execute_trade` reads. -/
structure InstrumentInfo where
  lotSizeFilter : LotSizeFilter
  tickSize : ℚ
deriving DecidableEq, Repr

/-- The `"state"` field of the persisted per-symbol dict. -/
inductive LifecycleState
  | TP1_PENDING
  | FULL_POSITION
  | BE_PENDING
deriving DecidableEq, Repr

/-- The dict persisted through `TradeState.set_state` (trader.py lines
380-389).  The `tp2_order_id` key written by the protector is always `None`
and is read nowhere, so it is not modelled. -/
structure TradeStateRec where
  state : LifecycleState
  side : Side
  initial_size : ℚ
  tp1_order_id : Option ℕ
  tp2_price : ℚ
  entry_price : ℚ
  sl_price : ℚ
deriving DecidableEq, Repr

/-- The fields of the `signal_data` row `execute_trade` reads
(the symbol is implicit: the embedding is per-symbol). -/
structure SignalData where
  signal : ℤ
  close : ℚ
  stop_loss : ℚ
  tp1 : ℚ
  tp2 : ℚ
deriving DecidableEq, Repr

/-- `BybitTrader` configuration fields used by `execute_trade`. -/
structure TraderConfig where
  leverage : ℚ
  partial_tp_percent : ℚ
deriving DecidableEq, Repr

/-- Gateway responses for one `execute_trade` run, in call order:
`get_balance` (inside sizing), the pre-trade `get_open_positions`,
the instrument cache content, `place_market_order`, the post-trade
`get_open_positions` (its `avgPrice`), `set_trading_stop`, and
`place_reduce_only_limit_order`. -/
structure ExecEnv where
  balance : ℚ
  openPositionBefore : Bool
  instrumentInfo : Option InstrumentInfo
  marketOrderId : Option ℕ
  positionAvgPrice : Option ℚ
  setStopSuccess : Bool
  reduceOnlyOrderId : Option ℕ
deriving DecidableEq, Repr

/-- What one `execute_trade` call produced: the remote calls it made, the
updated `initialized_symbols` membership for the symbol, the symbol's state
store entry afterwards, and the returned dict (or `None`). -/
structure ExecOutcome where
  actions : List Action
  initialized : Bool
  store : Option TradeStateRec
  result : Option (ℕ × Side × ℚ × ℚ)
deriving DecidableEq, Repr

/-- Embedding of `BybitTrader.execute_trade` for one symbol.

`initialized` is `symbol ∈ self.initialized_symbols` on entry; `store` is the
symbol's entry in the state store on entry.  Mirrors trader.py lines 321-392:
the initialisation block (`get_instrument_info`, `switch_position_mode`,
`set_leverage`) runs BEFORE the duplicate-position guard; the guard is
`get_open_positions(symbol) or trade_state.get_state(symbol)`, so its
`get_open_positions` venue read is performed on every call and is recorded in
the action list; the Python guard `if not qty` also rejects a quantized
quantity of `0.0`; the boolean returned by `set_trading_stop` is ignored; a
failed reduce-only placement leaves `tp1_order_id = None` and the state is
persisted regardless. -/
def execute_trade (cfg : TraderConfig) (env : ExecEnv) (initialized : Bool)
    (store : Option TradeStateRec) (sig : SignalData) (risk_percent : ℚ) :
    ExecOutcome :=
  let initActs : List Action :=
    if initialized then []
    else [.getInstrumentInfo, .switchPositionMode, .setLeverage]
  let guardActs : List Action := initActs ++ [.getOpenPositions]
  if env.openPositionBefore || store.isSome then
    ⟨guardActs, true, store, none⟩
  else
    match env.instrumentInfo with
    | none => ⟨guardActs, true, store, none⟩
    | some info =>
      let side := if sig.signal = 1 then Side.Buy else Side.Sell
      match calculate_position_size env.balance sig.close sig.stop_loss
          info.lotSizeFilter risk_percent cfg.leverage with
      | none => ⟨guardActs, true, store, none⟩
      | some qty =>
        if qty = 0 then ⟨guardActs, true, store, none⟩
        else
          match env.marketOrderId with
          | none => ⟨guardActs ++ [.placeMarketOrder], true, store, none⟩
          | some order_id =>
            match env.positionAvgPrice with
            | none => ⟨guardActs ++ [.placeMarketOrder], true, store, none⟩
            | some real_entry_price =>
              let sl_price := if side = Side.Buy then qDown info.tickSize sig.stop_loss
                else qUp info.tickSize sig.stop_loss
              let _tp1_price := if side = Side.Buy then qUp info.tickSize sig.tp1
                else qDown info.tickSize sig.tp1
              let acts1 := guardActs ++ [.placeMarketOrder, .setTradingStop]
              let partial_qty :=
                qDown info.lotSizeFilter.qtyStep (qty * (cfg.partial_tp_percent / 100))
              let staged :=
                if partial_qty < info.lotSizeFilter.minOrderQty then
                  ((none : Option ℕ), acts1)
                else (env.reduceOnlyOrderId, acts1 ++ [.placeReduceOnlyOrder])
              let new_state : TradeStateRec :=
                ⟨if staged.1.isSome then .TP1_PENDING else .FULL_POSITION,
                 side, qty, staged.1, sig.tp2, real_entry_price, sl_price⟩
              ⟨staged.2, true, some new_state,
               some (order_id, side, qty, real_entry_price)⟩

/-- Sample instrument rules shared by the concrete scenarios below. -/
def sampleLot : LotSizeFilter := ⟨1/100, 1/1000⟩

/-- Sample instrument info (tick size 0.1). -/
def sampleInfo : InstrumentInfo := ⟨sampleLot, 1/10⟩

/-- Sample long signal row. -/
def sampleSig : SignalData := ⟨1, 100, 98, 105, 110⟩

/-- Sample trader configuration (leverage 5, partial TP 50 %). -/
def sampleCfg : TraderConfig := ⟨5, 50⟩

/-- Sample all-success gateway environment (avg entry fill 100.05). -/
def sampleEnv : ExecEnv := ⟨10000, false, some sampleInfo, some 7, some (2001/20), true, some 8⟩

/-- The record `execute_trade` persists under `sampleCfg`/`sampleEnv`/`sampleSig`. -/
def sampleRec : TradeStateRec := ⟨.TP1_PENDING, .Buy, 50, some 8, 110, 2001/20, 98⟩

/-- Branch skeleton of `execute_trade`: every abort branch leaves the store
untouched, and the single branch that changes the store returns a result. -/
theorem execute_trade_store_or_result (cfg : TraderConfig) (env : ExecEnv)
    (initialized : Bool) (store : Option TradeStateRec) (sig : SignalData)
    (risk_percent : ℚ) :
    (execute_trade cfg env initialized store sig risk_percent).store = store ∨
    (execute_trade cfg env initialized store sig risk_percent).result.isSome = true := by
  unfold execute_trade
  repeat' split
  all_goals simp

/-- C3 (amended): when a state record already exists for the symbol or the
venue already reports an open position, `execute_trade` aborts returning
`None`, changes no state-store entry, and places no order, no stop and no
reduce-only order; the remote calls it does make on this path are exactly the
venue position read the duplicate guard itself performs, preceded — only when
the symbol has not yet been initialised in this process — by the
initialisation block (instrument-info fetch, position-mode switch, leverage
setting), which runs before the guard. -/
theorem c3_duplicate_guard_amended (cfg : TraderConfig) (env : ExecEnv)
    (initialized : Bool) (store : Option TradeStateRec) (sig : SignalData)
    (risk_percent : ℚ)
    (hdup : env.openPositionBefore = true ∨ store.isSome = true) :
    (execute_trade cfg env initialized store sig risk_percent).result = none ∧
    (execute_trade cfg env initialized store sig risk_percent).store = store ∧
    Action.placeMarketOrder ∉ (execute_trade cfg env initialized store sig risk_percent).actions ∧
    Action.setTradingStop ∉ (execute_trade cfg env initialized store sig risk_percent).actions ∧
    Action.placeReduceOnlyOrder ∉ (execute_trade cfg env initialized store sig risk_percent).actions ∧
    (execute_trade cfg env initialized store sig risk_percent).actions =
      (if initialized then []
       else [Action.getInstrumentInfo, Action.switchPositionMode, Action.setLeverage]) ++
        [Action.getOpenPositions] := by
  have hguard : (env.openPositionBefore || store.isSome) = true := by
    rcases hdup with h | h <;> simp [h]
  cases initialized <;> simp [execute_trade, hguard]

/-- C3 witness: duplicate guard at the sample inputs, initialised symbol:
the only remote call is the guard's own position read, the store is
untouched, `None` is returned. -/
theorem c3_duplicate_guard_amended_witness :
    (execute_trade sampleCfg sampleEnv true (some sampleRec) sampleSig 1).result = none ∧
    (execute_trade sampleCfg sampleEnv true (some sampleRec) sampleSig 1).store = some sampleRec ∧
    (execute_trade sampleCfg sampleEnv true (some sampleRec) sampleSig 1).actions =
      [Action.getOpenPositions] := by
  have h := c3_duplicate_guard_amended sampleCfg sampleEnv true (some sampleRec) sampleSig 1
    (Or.inr rfl)
  refine ⟨h.1, h.2.1, ?_⟩
  have ha := h.2.2.2.2.2
  simpa using ha

/-- C3 counterexample: on the first `execute_trade` call of the process for a
symbol that already has a stored position, the per-symbol initialisation
block still switches the position mode and sets the leverage — two remote
mutations — before the duplicate guard aborts, so "no remote mutation of any
kind" is false of the code. -/
theorem c3_duplicate_guard_counterexample :
    (execute_trade sampleCfg sampleEnv false (some sampleRec) sampleSig 1).result = none ∧
    Action.switchPositionMode ∈ (execute_trade sampleCfg sampleEnv false (some sampleRec) sampleSig 1).actions ∧
    Action.setLeverage ∈ (execute_trade sampleCfg sampleEnv false (some sampleRec) sampleSig 1).actions := by
  simp [execute_trade, sampleEnv]

/-- C4 (amended): `execute_trade` persists the new state only as its final
step — every branch that returns `None` (sizing failure, market-order
rejection, entry never confirmed, duplicate guard) leaves the symbol's store
entry exactly as it was — but a stop-loss placement failure does NOT abort:
the boolean returned by `set_trading_stop` is ignored, so the outcome is
identical whatever that call reports, and the state is persisted anyway. -/
theorem c4_persist_only_on_success_amended (cfg : TraderConfig) (env : ExecEnv)
    (initialized : Bool) (store : Option TradeStateRec) (sig : SignalData)
    (risk_percent : ℚ) (b : Bool) :
    ((execute_trade cfg env initialized store sig risk_percent).result = none →
      (execute_trade cfg env initialized store sig risk_percent).store = store) ∧
    execute_trade cfg { env with setStopSuccess := b } initialized store sig risk_percent =
      execute_trade cfg env initialized store sig risk_percent := by
  constructor
  · intro h
    rcases execute_trade_store_or_result cfg env initialized store sig risk_percent with hc | hc
    · exact hc
    · rw [h] at hc
      simp at hc
  · cases env
    rfl

/-- C4 witness: with a zero fetched balance the sizing step fails, nothing is
persisted, and flipping the ignored `set_trading_stop` response leaves the
outcome unchanged. -/
theorem c4_persist_only_on_success_amended_witness :
    (execute_trade sampleCfg { sampleEnv with balance := 0 } false none sampleSig 1).store = none ∧
    execute_trade sampleCfg { sampleEnv with setStopSuccess := false } false none sampleSig 1 =
      execute_trade sampleCfg sampleEnv false none sampleSig 1 := by
  constructor
  · exact (c4_persist_only_on_success_amended sampleCfg
      { sampleEnv with balance := 0 } false none sampleSig 1 true).1
      (by simp [execute_trade, sampleEnv, calculate_position_size])
  · exact (c4_persist_only_on_success_amended sampleCfg sampleEnv false none sampleSig 1 false).2

/-- C4 counterexample: a run in which every step succeeds except the
stop-loss placement (`set_trading_stop` returns failure) still persists a
PositionState — the claim that a stop-loss placement failure aborts `open()`
leaving the store unchanged is false of the code, which ignores the returned
boolean. -/
theorem c4_setstop_failure_counterexample :
    ({ sampleEnv with setStopSuccess := false } : ExecEnv).setStopSuccess = false ∧
    (execute_trade sampleCfg { sampleEnv with setStopSuccess := false } false none sampleSig 1).store =
      some sampleRec := by
  constructor
  · rfl
  · norm_num [execute_trade, sampleEnv, sampleSig, sampleCfg, sampleInfo, sampleLot, sampleRec,
      calculate_position_size, margin_limit_percent, qDown, Rat.floor_def, min_def]

/-- C9: when the staged-exit quantity passes the minimum-size check but the
reduce-only limit order placement returns no order id, `execute_trade` still
persists a PositionState with lifecycle `FULL_POSITION` and a null
`tp1_order_id` — the same record the skip-staging branch would store — and
still returns a trade result. -/
theorem c9_staging_failure_persists (cfg : TraderConfig) (env : ExecEnv)
    (initialized : Bool) (sig : SignalData) (risk_percent : ℚ)
    (info : InstrumentInfo) (qty : ℚ) (oid : ℕ) (avg : ℚ)
    (h1 : env.openPositionBefore = false)
    (h2 : env.instrumentInfo = some info)
    (h3 : calculate_position_size env.balance sig.close sig.stop_loss
      info.lotSizeFilter risk_percent cfg.leverage = some qty)
    (h4 : qty ≠ 0)
    (h5 : env.marketOrderId = some oid)
    (h6 : env.positionAvgPrice = some avg)
    (h7 : info.lotSizeFilter.minOrderQty ≤
      qDown info.lotSizeFilter.qtyStep (qty * (cfg.partial_tp_percent / 100)))
    (h8 : env.reduceOnlyOrderId = none) :
    (execute_trade cfg env initialized none sig risk_percent).store =
      some ⟨.FULL_POSITION, if sig.signal = 1 then Side.Buy else Side.Sell, qty, none, sig.tp2, avg,
        if sig.signal = 1 then qDown info.tickSize sig.stop_loss
          else qUp info.tickSize sig.stop_loss⟩ ∧
    Action.placeReduceOnlyOrder ∈ (execute_trade cfg env initialized none sig risk_percent).actions ∧
    (execute_trade cfg env initialized none sig risk_percent).result.isSome = true := by
  have hpq : ¬ (qDown info.lotSizeFilter.qtyStep (qty * (cfg.partial_tp_percent / 100)) <
      info.lotSizeFilter.minOrderQty) := not_lt.mpr h7
  by_cases hs : sig.signal = 1 <;>
    simp [execute_trade, h1, h2, h3, h4, h5, h6, h8, hpq, hs]

/-- C9 witness: the sample success run with the reduce-only placement
failing persists `FULL_POSITION` with no staged-exit order id. -/
theorem c9_staging_failure_persists_witness :
    (execute_trade sampleCfg { sampleEnv with reduceOnlyOrderId := none } false none sampleSig 1).store =
      some ⟨.FULL_POSITION, .Buy, 50, none, 110, 2001/20, 98⟩ := by
  have h := c9_staging_failure_persists sampleCfg
    { sampleEnv with reduceOnlyOrderId := none } false sampleSig 1 sampleInfo 50 7 (2001/20)
    rfl rfl
    (by norm_num [calculate_position_size, margin_limit_percent, qDown, Rat.floor_def, min_def,
      sampleEnv, sampleSig, sampleCfg, sampleInfo, sampleLot])
    (by norm_num) rfl rfl
    (by norm_num [qDown, Rat.floor_def, sampleInfo, sampleLot, sampleCfg])
    rfl
  have h1 := h.1
  norm_num [sampleSig, sampleInfo, sampleLot, qDown, Rat.floor_def] at h1
  exact h1

/-! ## Break-even migration (`protector.py`, `check_tp1_order`) -/

/-- Final status found in the order history for the staged-exit order. -/
inductive OrderHist
  | Filled
  | Cancelled
  | Other
deriving DecidableEq, Repr

/-- `stopLoss` / `takeProfit` reported on the position during verification;
the venue reports empty strings when unset, modelled as `none`. -/
structure FinalPos where
  stopLoss : Option ℚ
  takeProfit : Option ℚ
deriving DecidableEq, Repr

/-- Gateway responses for one `check_tp1_order` run, in call order:
`get_open_orders` (order still active?), `get_order_history`
(`historyFound` is `retCode == 0` and a non-empty list; `historyStatus` the
final status), the post-fill `get_open_positions`, `cancel_all_stop_orders`,
the post-cancel `get_open_positions`, `get_instrument_info`,
`set_trading_stop`, and the verification `get_open_positions` read. -/
structure ProtEnv where
  orderStillActive : Bool
  historyFound : Bool
  historyStatus : OrderHist
  positionAfterFill : Bool
  cancelSuccess : Bool
  positionAfterCancel : Bool
  instrumentInfo : Option InstrumentInfo
  setStopSuccess : Bool
  finalPosition : Option FinalPos
deriving DecidableEq, Repr

/-- Effect of one `check_tp1_order` run on the symbol's state-store entry:
left untouched, removed (`remove_state`), or overwritten (`set_state`). -/
inductive StoreOp
  | keep
  | remove
  | setSt (rec : TradeStateRec)
deriving DecidableEq, Repr

/-- New stop-loss target of the break-even migration (protector.py lines
88-95): the stored entry price quantized to tick size, rounding down for a
long and up for a short. -/
def slTargetOf (side : Side) (tick entry_price : ℚ) : ℚ :=
  if side = Side.Buy then qDown tick entry_price else qUp tick entry_price

/-- New second-target price of the break-even migration (protector.py lines
92-97): the stored `tp2_price` quantized to tick size, rounding up for a
long and down for a short. -/
def tpTargetOf (side : Side) (tick tp2_price : ℚ) : ℚ :=
  if side = Side.Buy then qUp tick tp2_price else qDown tick tp2_price

/-- Embedding of `check_tp1_order` (protector.py lines 14-149): the effect on
the symbol's store entry plus whether the critical verification alert fired.
API-error/not-found branches collapse to `keep`: the code only logs and
returns there.  Verification (lines 122-139): a reported value passes when it
is present and within one tick of its target; on success the state advances
to `BE_PENDING` with the new stop recorded and is persisted; otherwise the
store is untouched and the critical alert fires. -/
def check_tp1_order (env : ProtEnv) (state : TradeStateRec) : StoreOp × Bool :=
  match state.tp1_order_id with
  | none => (.keep, false)
  | some _ =>
    if env.orderStillActive then (.keep, false)
    else if !env.historyFound then (.keep, false)
    else
      match env.historyStatus with
      | .Cancelled => (.remove, false)
      | .Other => (.keep, false)
      | .Filled =>
        if !env.positionAfterFill then (.remove, false)
        else if !env.cancelSuccess then (.keep, false)
        else if !env.positionAfterCancel then (.remove, false)
        else
          match env.instrumentInfo with
          | none => (.keep, false)
          | some info =>
            let tick := info.tickSize
            let sl_price_target := slTargetOf state.side tick state.entry_price
            let tp_price_target := tpTargetOf state.side tick state.tp2_price
            if !env.setStopSuccess then (.keep, false)
            else
              match env.finalPosition with
              | none => (.remove, false)
              | some fp =>
                let sl_ok : Bool := match fp.stopLoss with
                  | some v => decide (|v - sl_price_target| ≤ tick)
                  | none => false
                let tp_ok : Bool := match fp.takeProfit with
                  | some v => decide (|v - tp_price_target| ≤ tick)
                  | none => false
                if sl_ok && tp_ok then
                  (.setSt { state with state := .BE_PENDING, sl_price := sl_price_target },
                   false)
                else (.keep, true)

/-- C5: in the break-even migration, once the combined stop/target update has
been issued and the position re-read reports both a stop and a target, each
reported value is compared against its computed target with a tolerance of
exactly one tick size: if both are within one tick the state advances to
`BE_PENDING` (with the new stop recorded) and is persisted; if either is off
by more than one tick the store is left untouched and the critical
operator-facing alert fires. -/
theorem c5_verification_tolerance (env : ProtEnv) (st : TradeStateRec)
    (oid : ℕ) (info : InstrumentInfo) (fp : FinalPos) (slv tpv : ℚ)
    (h1 : st.tp1_order_id = some oid)
    (h2 : env.orderStillActive = false)
    (h3 : env.historyFound = true)
    (h4 : env.historyStatus = .Filled)
    (h5 : env.positionAfterFill = true)
    (h6 : env.cancelSuccess = true)
    (h7 : env.positionAfterCancel = true)
    (h8 : env.instrumentInfo = some info)
    (h9 : env.setStopSuccess = true)
    (h10 : env.finalPosition = some fp)
    (h11 : fp.stopLoss = some slv)
    (h12 : fp.takeProfit = some tpv) :
    (|slv - slTargetOf st.side info.tickSize st.entry_price| ≤ info.tickSize ∧
     |tpv - tpTargetOf st.side info.tickSize st.tp2_price| ≤ info.tickSize →
      check_tp1_order env st =
        (StoreOp.setSt
          { st with state := LifecycleState.BE_PENDING, sl_price := slTargetOf st.side info.tickSize st.entry_price },
         false)) ∧
    (info.tickSize < |slv - slTargetOf st.side info.tickSize st.entry_price| ∨
     info.tickSize < |tpv - tpTargetOf st.side info.tickSize st.tp2_price| →
      check_tp1_order env st = (.keep, true)) := by
  constructor
  · rintro ⟨ha, hb⟩
    simp [check_tp1_order, h1, h2, h3, h4, h5, h6, h7, h8, h9, h10, h11, h12, ha, hb]
  · intro hone
    rcases hone with hone | hone
    · simp [check_tp1_order, h1, h2, h3, h4, h5, h6, h7, h8, h9, h10, h11, h12,
        not_le.mpr hone]
    · simp [check_tp1_order, h1, h2, h3, h4, h5, h6, h7, h8, h9, h10, h11, h12,
        not_le.mpr hone]

/-- C5 witness: with the venue reporting exactly the computed stop 100 and
target 110 (tick 0.1), the sample staged position advances to `BE_PENDING`
and is persisted, with no alert. -/
theorem c5_verification_tolerance_witness :
    check_tp1_order
      ⟨false, true, .Filled, true, true, true, some sampleInfo, true, some ⟨some 100, some 110⟩⟩
      sampleRec =
      (.setSt ⟨.BE_PENDING, .Buy, 50, some 8, 110, 2001/20, 100⟩, false) := by
  have h := c5_verification_tolerance
    ⟨false, true, .Filled, true, true, true, some sampleInfo, true, some ⟨some 100, some 110⟩⟩
    sampleRec 8 sampleInfo ⟨some 100, some 110⟩ 100 110
    rfl rfl rfl rfl rfl rfl rfl rfl rfl rfl rfl rfl
  have h1 := h.1 (by
    constructor <;>
      norm_num [slTargetOf, tpTargetOf, qDown, qUp, sampleInfo, sampleLot, sampleRec,
        Rat.floor_def, Int.ceil_eq_iff])
  have h2 := h1
  norm_num [sampleRec, sampleInfo, sampleLot, slTargetOf, qDown, Rat.floor_def] at h2
  exact h2

/-- C6: the break-even migration's quantization directions — for a long the
new stop equals the entry floor-quantized to tick (a tick multiple, at most
the entry, within one tick of it) and the new second target equals `tp2`
ceiling-quantized (a tick multiple, at least `tp2`, within one tick); for a
short the stop rounds up and the target rounds down, mirrored. -/
theorem c6_breakeven_rounding_directions (tick entry tp2 : ℚ) (h : 0 < tick) :
    (slTargetOf .Buy tick entry = qDown tick entry ∧
     (∃ k : ℤ, slTargetOf .Buy tick entry = k * tick) ∧
     slTargetOf .Buy tick entry ≤ entry ∧ entry - slTargetOf .Buy tick entry < tick) ∧
    (tpTargetOf .Buy tick tp2 = qUp tick tp2 ∧
     (∃ k : ℤ, tpTargetOf .Buy tick tp2 = k * tick) ∧
     tp2 ≤ tpTargetOf .Buy tick tp2 ∧ tpTargetOf .Buy tick tp2 - tp2 < tick) ∧
    (slTargetOf .Sell tick entry = qUp tick entry ∧
     (∃ k : ℤ, slTargetOf .Sell tick entry = k * tick) ∧
     entry ≤ slTargetOf .Sell tick entry ∧ slTargetOf .Sell tick entry - entry < tick) ∧
    (tpTargetOf .Sell tick tp2 = qDown tick tp2 ∧
     (∃ k : ℤ, tpTargetOf .Sell tick tp2 = k * tick) ∧
     tpTargetOf .Sell tick tp2 ≤ tp2 ∧ tp2 - tpTargetOf .Sell tick tp2 < tick) := by
  have hsb : slTargetOf .Buy tick entry = qDown tick entry := by simp [slTargetOf]
  have htb : tpTargetOf .Buy tick tp2 = qUp tick tp2 := by simp [tpTargetOf]
  have hss : slTargetOf .Sell tick entry = qUp tick entry := by simp [slTargetOf]
  have hts : tpTargetOf .Sell tick tp2 = qDown tick tp2 := by simp [tpTargetOf]
  refine ⟨⟨hsb, ?_, ?_, ?_⟩, ⟨htb, ?_, ?_, ?_⟩, ⟨hss, ?_, ?_, ?_⟩, ⟨hts, ?_, ?_, ?_⟩⟩
  · rw [hsb]; exact qDown_is_multiple tick entry
  · rw [hsb]; exact qDown_le tick entry h
  · rw [hsb]; have := sub_qDown_lt tick entry h; linarith
  · rw [htb]; exact qUp_is_multiple tick tp2
  · rw [htb]; exact le_qUp tick tp2 h
  · rw [htb]; have := qUp_sub_lt tick tp2 h; linarith
  · rw [hss]; exact qUp_is_multiple tick entry
  · rw [hss]; exact le_qUp tick entry h
  · rw [hss]; have := qUp_sub_lt tick entry h; linarith
  · rw [hts]; exact qDown_is_multiple tick tp2
  · rw [hts]; exact qDown_le tick tp2 h
  · rw [hts]; have := sub_qDown_lt tick tp2 h; linarith

/-- C6 witness: with tick 0.1 and the sample entry 100.05, the long stop
target is at most the entry and the short stop target at least the entry. -/
theorem c6_breakeven_rounding_directions_witness :
    (0 : ℚ) < 1/10 ∧
    slTargetOf .Buy (1/10) (2001/20) ≤ 2001/20 ∧
    2001/20 ≤ slTargetOf .Sell (1/10) (2001/20) := by
  have h := c6_breakeven_rounding_directions (1/10) (2001/20) 110 (by norm_num)
  exact ⟨by norm_num, h.1.2.2.1, h.2.2.1.2.2.1⟩

/-! ## Signal Engine (`strategy.py`, `apply_strategy`) -/

/-- One row of the indicator DataFrame as read by the signal rules: the
`_prev` fields are the `shift(1)` values (the previous row's candle close and
Donchian bounds); everything else is this row's columns. -/
structure StratRow where
  close_prev : ℚ
  dc_upper_prev : ℚ
  dc_lower_prev : ℚ
  close : ℚ
  dc_upper : ℚ
  dc_lower : ℚ
  ema_fast : ℚ
  mfi : ℚ
  adx : ℚ
  low : ℚ
  high : ℚ
  bb_lower : ℚ
  bb_upper : ℚ
deriving DecidableEq, Repr

/-- `trend_buy_condition = is_trending & breakout_up & uptrend & volume_confirm_up_trend`. -/
def trend_buy_condition (r : StratRow) : Prop :=
  r.adx > 25 ∧ (r.close_prev < r.dc_upper_prev ∧ r.close > r.dc_upper) ∧
    r.close > r.ema_fast ∧ r.mfi > 50

/-- `trend_sell_condition = is_trending & breakout_down & downtrend & volume_confirm_down_trend`. -/
def trend_sell_condition (r : StratRow) : Prop :=
  r.adx > 25 ∧ (r.close_prev > r.dc_lower_prev ∧ r.close < r.dc_lower) ∧
    r.close < r.ema_fast ∧ r.mfi < 50

/-- `range_buy_condition = is_ranging & touch_lower & volume_confirm_up_range`. -/
def range_buy_condition (r : StratRow) : Prop :=
  r.adx < 20 ∧ r.low ≤ r.bb_lower ∧ r.mfi < 20

/-- `range_sell_condition = is_ranging & touch_upper & volume_confirm_down_range`. -/
def range_sell_condition (r : StratRow) : Prop :=
  r.adx < 20 ∧ r.high ≥ r.bb_upper ∧ r.mfi > 80

instance (r : StratRow) : Decidable (trend_buy_condition r) := by
  unfold trend_buy_condition; infer_instance

instance (r : StratRow) : Decidable (trend_sell_condition r) := by
  unfold trend_sell_condition; infer_instance

instance (r : StratRow) : Decidable (range_buy_condition r) := by
  unfold range_buy_condition; infer_instance

instance (r : StratRow) : Decidable (range_sell_condition r) := by
  unfold range_sell_condition; infer_instance

/-- The `strategy_name` column values. -/
inductive StrategyName
  | NONE
  | TREND
  | RANGE
deriving DecidableEq, Repr

/-- The `signal` column of a row after `apply_strategy`: starts at 0, the
trend conditions write ±1 first, then the range conditions write ±1
(the assignment order of strategy.py lines 63-75). -/
def signalOf (r : StratRow) : ℤ :=
  let afterTrend : ℤ :=
    if trend_buy_condition r then 1 else if trend_sell_condition r then -1 else 0
  if range_buy_condition r then 1
  else if range_sell_condition r then -1
  else afterTrend

/-- The `strategy_name` column of a row after `apply_strategy`: starts at
`'None'`, overwritten by `'TREND'` then `'RANGE'` when the respective
conditions hold (strategy.py lines 65 and 76). -/
def strategyOf (r : StratRow) : StrategyName :=
  let afterTrend : StrategyName :=
    if trend_buy_condition r ∨ trend_sell_condition r then .TREND else .NONE
  if range_buy_condition r ∨ range_sell_condition r then .RANGE else afterTrend

/-- C7: a row is classified `TREND` only when ADX > 25 and `RANGE` only when
ADX < 20; for ADX in [20, 25] no signal fires and no regime is assigned; the
two regimes are mutually exclusive (their ADX thresholds cannot hold
together); and a nonzero signal always carries a regime classification. -/
theorem c7_regime_thresholds (r : StratRow) :
    (strategyOf r = .TREND → r.adx > 25) ∧
    (strategyOf r = .RANGE → r.adx < 20) ∧
    (20 ≤ r.adx → r.adx ≤ 25 → signalOf r = 0 ∧ strategyOf r = .NONE) ∧
    ¬((trend_buy_condition r ∨ trend_sell_condition r) ∧
      (range_buy_condition r ∨ range_sell_condition r)) ∧
    (signalOf r ≠ 0 → strategyOf r ≠ .NONE) := by
  have htr : (trend_buy_condition r ∨ trend_sell_condition r) → r.adx > 25 := by
    rintro (h | h) <;> exact h.1
  have hrr : (range_buy_condition r ∨ range_sell_condition r) → r.adx < 20 := by
    rintro (h | h) <;> exact h.1
  refine ⟨?_, ?_, ?_, ?_, ?_⟩
  · intro h
    unfold strategyOf at h
    by_cases hr : range_buy_condition r ∨ range_sell_condition r
    · simp [hr] at h
    · by_cases ht : trend_buy_condition r ∨ trend_sell_condition r
      · exact htr ht
      · simp [hr, ht] at h
  · intro h
    unfold strategyOf at h
    by_cases hr : range_buy_condition r ∨ range_sell_condition r
    · exact hrr hr
    · by_cases ht : trend_buy_condition r ∨ trend_sell_condition r
      · simp [hr, ht] at h
      · simp [hr, ht] at h
  · intro h20 h25
    have hnt : ¬(trend_buy_condition r ∨ trend_sell_condition r) := fun h =>
      absurd (htr h) (by linarith)
    have hnr : ¬(range_buy_condition r ∨ range_sell_condition r) := fun h =>
      absurd (hrr h) (by linarith)
    constructor
    · unfold signalOf
      have h1 : ¬trend_buy_condition r := fun h => hnt (Or.inl h)
      have h2 : ¬trend_sell_condition r := fun h => hnt (Or.inr h)
      have h3 : ¬range_buy_condition r := fun h => hnr (Or.inl h)
      have h4 : ¬range_sell_condition r := fun h => hnr (Or.inr h)
      simp [h1, h2, h3, h4]
    · unfold strategyOf
      simp [hnt, hnr]
  · rintro ⟨ht, hr⟩
    have := htr ht
    have := hrr hr
    linarith
  · intro hs
    unfold signalOf at hs
    unfold strategyOf
    split_ifs at hs with h1 h2 h3 h4 <;> simp_all

/-- C7 witness: a quiet row with ADX 22 (and all price columns 0) fires no
signal and is assigned no regime. -/
theorem c7_regime_thresholds_witness :
    signalOf ⟨0, 0, 0, 0, 0, 0, 0, 0, 22, 0, 0, 0, 0⟩ = 0 ∧
    strategyOf ⟨0, 0, 0, 0, 0, 0, 0, 0, 22, 0, 0, 0, 0⟩ = .NONE :=
  (c7_regime_thresholds ⟨0, 0, 0, 0, 0, 0, 0, 0, 22, 0, 0, 0, 0⟩).2.2.1
    (by norm_num) (by norm_num)

/-! ## Candle Tracker (`main.py`, `SymbolTracker.add_kline`) -/

/-- One confirmed kline as stored in the tracker's deque
(`op` is the `'open'` price; `open` is a Lean keyword). -/
structure Candle where
  timestamp : ℤ
  op : ℚ
  high : ℚ
  low : ℚ
  close : ℚ
  volume : ℚ
deriving DecidableEq, Repr

/-- `deque(maxlen=cap).append c`: append on the right, evicting the oldest
element on the left when the capacity is exceeded. -/
def pushCap (cap : ℕ) (klines : List Candle) (c : Candle) : List Candle :=
  if cap < (klines ++ [c]).length then (klines ++ [c]).tail else klines ++ [c]

/-- Embedding of `SymbolTracker.add_kline`: the new window, and whether
`analyze()` was invoked.  A candle whose timestamp is not strictly greater
than the last accepted one is dropped with no analysis (main.py lines
142-143); otherwise it is appended and analysis runs immediately. -/
def add_kline (cap : ℕ) (klines : List Candle) (c : Candle) :
    List Candle × Bool :=
  match klines.getLast? with
  | some lastC =>
    if c.timestamp ≤ lastC.timestamp then (klines, false)
    else (pushCap cap klines c, true)
  | none => (pushCap cap klines c, true)

/-- Appending a candle strictly newer than the window's last element
preserves strictly increasing timestamps, also through eviction. -/
theorem chain'_pushCap (cap : ℕ) (w : List Candle) (c : Candle)
    (hw : List.Chain' (fun a b => a.timestamp < b.timestamp) w)
    (hlast : ∀ lastC ∈ w.getLast?, lastC.timestamp < c.timestamp) :
    List.Chain' (fun a b => a.timestamp < b.timestamp) (pushCap cap w c) := by
  have happ : List.Chain' (fun a b => a.timestamp < b.timestamp) (w ++ [c]) := by
    rw [List.chain'_append]
    refine ⟨hw, List.chain'_singleton c, ?_⟩
    intro x hx y hy
    simp only [List.head?_cons, Option.mem_some_iff] at hy
    subst hy
    exact hlast x hx
  unfold pushCap
  split
  · exact happ.tail
  · exact happ

/-- C8: `add_kline` rejects a candle whose timestamp is not strictly newer
than the last accepted one, leaving the window unchanged and skipping
analysis; otherwise (strictly newer, or empty window) it appends with
capacity eviction and invokes the analysis; and the strictly-increasing
timestamp invariant is preserved in every case. -/
theorem c8_tracker_monotone (cap : ℕ) (w : List Candle) (c : Candle)
    (hinv : List.Chain' (fun a b => a.timestamp < b.timestamp) w) :
    (∀ lastC, w.getLast? = some lastC → c.timestamp ≤ lastC.timestamp →
      add_kline cap w c = (w, false)) ∧
    (∀ lastC, w.getLast? = some lastC → lastC.timestamp < c.timestamp →
      add_kline cap w c = (pushCap cap w c, true)) ∧
    (w = [] → add_kline cap w c = (pushCap cap w c, true)) ∧
    List.Chain' (fun a b => a.timestamp < b.timestamp) (add_kline cap w c).1 := by
  refine ⟨?_, ?_, ?_, ?_⟩
  · intro lastC hl hle
    simp [add_kline, hl, hle]
  · intro lastC hl hlt
    simp [add_kline, hl, not_le.mpr hlt]
  · intro he
    subst he
    simp [add_kline]
  · rcases hl : w.getLast? with _ | lastC
    · have hw : w = [] := List.getLast?_eq_none_iff.mp hl
      subst hw
      simp only [add_kline, List.getLast?_nil]
      unfold pushCap
      split <;> simp
    · simp only [add_kline, hl]
      by_cases hle : c.timestamp ≤ lastC.timestamp
      · simp only [if_pos hle]
        exact hinv
      · simp only [if_neg hle]
        refine chain'_pushCap cap w c hinv ?_
        intro x hx
        rw [hl, Option.mem_some_iff] at hx
        subst hx
        exact lt_of_not_le hle

/-- C8 witness: a duplicate of the last candle is rejected without analysis,
and a strictly newer candle is appended with analysis, keeping timestamps
strictly increasing. -/
theorem c8_tracker_monotone_witness :
    add_kline 100 [⟨1, 1, 1, 1, 1, 1⟩, ⟨2, 1, 1, 1, 1, 1⟩] ⟨2, 5, 5, 5, 5, 5⟩ =
      ([⟨1, 1, 1, 1, 1, 1⟩, ⟨2, 1, 1, 1, 1, 1⟩], false) ∧
    add_kline 100 [⟨1, 1, 1, 1, 1, 1⟩, ⟨2, 1, 1, 1, 1, 1⟩] ⟨3, 5, 5, 5, 5, 5⟩ =
      ([⟨1, 1, 1, 1, 1, 1⟩, ⟨2, 1, 1, 1, 1, 1⟩, ⟨3, 5, 5, 5, 5, 5⟩], true) := by
  have h := c8_tracker_monotone 100 [⟨1, 1, 1, 1, 1, 1⟩, ⟨2, 1, 1, 1, 1, 1⟩]
    (⟨2, 5, 5, 5, 5, 5⟩ : Candle) (by simp)
  have h2 := c8_tracker_monotone 100 [⟨1, 1, 1, 1, 1, 1⟩, ⟨2, 1, 1, 1, 1, 1⟩]
    (⟨3, 5, 5, 5, 5, 5⟩ : Candle) (by simp)
  constructor
  · exact h.1 ⟨2, 1, 1, 1, 1, 1⟩ (by simp) (by norm_num)
  · have := h2.2.1 ⟨2, 1, 1, 1, 1, 1⟩ (by simp) (by norm_num)
    rw [this]
    simp [pushCap]

end BybitBot
